import Mathlib

/-!
Shallow embedding of the `st7567` LCD driver crate (src/lib.rs, src/consts.rs).

The crate drives an ST7567 display over an SPI transport plus two control
pins (data/command select, reset).  We model the external world by an
environment of oracles: for each pin-set or SPI-write call (numbered per
device by a counter in the driver state) the oracle either returns `none`
(the call succeeds) or `some e` (the call fails with underlying platform
error code `e`).  Successful calls append observable events to a trace;
bytes written over SPI and pin transitions are the observable behaviour.

Machine integers: the Rust buffer holds `u8` values; we model bytes as
`Nat`.  The only arithmetic on buffer bytes is `|=` with `1 << bit` and
`&=` with `!(1 << bit)` for `bit = y % 8 < 8`; the `u8` complement
`!(1 << bit)` equals `255 ^^^ (1 <<< bit)` since `1 << bit` has only one
bit, below bit 8, so no modular reduction is ever needed on bytes that
start below 256.
-/

namespace ST7567

/-- consts.rs: `pub const WIDTH: u8 = 128;` -/
def WIDTH : Nat := 128

/-- consts.rs: `pub const HEIGHT: u8 = 64;` -/
def HEIGHT : Nat := 64

/-- consts.rs: `pub const ST7567_PAGESIZE: u8 = 128;` -/
def ST7567_PAGESIZE : Nat := 128

/-- lib.rs: `const BUFFER_SIZE: usize = 1024;` -/
def BUFFER_SIZE : Nat := 1024

/-- consts.rs: `ST7567_DISPON: u8 = 0xaf` -/
def ST7567_DISPON : Nat := 0xaf

/-- consts.rs: `ST7567_SETSTARTLINE: u8 = 0x40` -/
def ST7567_SETSTARTLINE : Nat := 0x40

/-- consts.rs: `ST7567_REG_RATIO: u8 = 0x20` -/
def ST7567_REG_RATIO : Nat := 0x20

/-- consts.rs: `ST7567_SETPAGESTART: u8 = 0xb0` -/
def ST7567_SETPAGESTART : Nat := 0xb0

/-- consts.rs: `ST7567_SETCOLL: u8 = 0x00` -/
def ST7567_SETCOLL : Nat := 0x00

/-- consts.rs: `ST7567_SETCOLH: u8 = 0x10` -/
def ST7567_SETCOLH : Nat := 0x10

/-- consts.rs: `ST7567_SEG_DIR_NORMAL: u8 = 0xa0` -/
def ST7567_SEG_DIR_NORMAL : Nat := 0xa0

/-- consts.rs: `ST7567_DISPNORMAL: u8 = 0xa6` -/
def ST7567_DISPNORMAL : Nat := 0xa6

/-- consts.rs: `ST7567_BIAS_1_7: u8 = 0xa3` -/
def ST7567_BIAS_1_7 : Nat := 0xa3

/-- consts.rs: `ST7567_ENTER_RMWMODE: u8 = 0xe0` -/
def ST7567_ENTER_RMWMODE : Nat := 0xe0

/-- consts.rs: `ST7567_EXIT_RMWMODE: u8 = 0xee` -/
def ST7567_EXIT_RMWMODE : Nat := 0xee

/-- consts.rs: `ST7567_SETCOMREVERSE: u8 = 0xc8` -/
def ST7567_SETCOMREVERSE : Nat := 0xc8

/-- consts.rs: `ST7567_POWERCTRL: u8 = 0x2f` -/
def ST7567_POWERCTRL : Nat := 0x2f

/-- consts.rs: `ST7567_SETCONTRAST: u8 = 0x81` -/
def ST7567_SETCONTRAST : Nat := 0x81

/-- lib.rs: `pub enum PinState { High, Low }` -/
inductive PinState where
  | High : PinState
  | Low : PinState
deriving DecidableEq, Repr

/-- The two control pins owned by the driver: `dc_pin` and `rst_pin`. -/
inductive PinKind where
  | dc : PinKind
  | rst : PinKind
deriving DecidableEq, Repr

/-- Observable effects on the hardware: a successful pin transition, or a
successful write of a byte sequence over the SPI transport. -/
inductive Event where
  | pinSet : PinKind → PinState → Event
  | spiWrite : List Nat → Event
deriving DecidableEq, Repr

/-- lib.rs: `pub enum Error<P, S> { SpiError(S::Error), PinError(P::Error) }`.
Underlying platform errors are modelled as `Nat` codes supplied by the
environment's oracles. -/
inductive Error where
  | SpiError : Nat → Error
  | PinError : Nat → Error
deriving DecidableEq, Repr

/-- The external world: for the n-th call on each device, `none` means the
call succeeds, `some e` that it fails with underlying error code `e`. -/
structure Env where
  dcRes : Nat → Option Nat
  rstRes : Nat → Option Nat
  spiRes : Nat → Option Nat

/-- Driver state: the 1024-byte framebuffer (`buf` field of `ST7567`),
per-device call counters (to index the oracles), and the trace of
observable events so far. -/
structure St where
  buf : List Nat
  dcCnt : Nat
  rstCnt : Nat
  spiCnt : Nat
  trace : List Event
deriving Repr

/-- A driver computation: reads the environment, transforms the state, and
returns `Except`-style success or the first `Error` encountered
(Rust's `Result<(), Error<P, S>>` with `?` propagation). -/
def M (α : Type) : Type := Env → St → Except Error α × St

/-- `Ok(())`-style return. -/
def mPure {α : Type} (a : α) : M α := fun _ st => (Except.ok a, st)

/-- Sequencing with `?`-propagation: if the first computation fails, the
second never runs. -/
def mBind {α β : Type} (m : M α) (f : α → M β) : M β := fun env st =>
  match m env st with
  | (Except.ok a, st') => f a env st'
  | (Except.error e, st') => (Except.error e, st')

/-- lib.rs `set_pin`: call `pin.set_value(pin_state)`; on failure return
`Err(Error::PinError(e))`.  A successful call records the transition. -/
def set_pin (k : PinKind) (s : PinState) : M Unit := fun env st =>
  match k with
  | PinKind.dc =>
      match env.dcRes st.dcCnt with
      | none =>
          (Except.ok (),
           { st with dcCnt := st.dcCnt + 1,
                     trace := st.trace ++ [Event.pinSet PinKind.dc s] })
      | some e => (Except.error (Error.PinError e), { st with dcCnt := st.dcCnt + 1 })
  | PinKind.rst =>
      match env.rstRes st.rstCnt with
      | none =>
          (Except.ok (),
           { st with rstCnt := st.rstCnt + 1,
                     trace := st.trace ++ [Event.pinSet PinKind.rst s] })
      | some e => (Except.error (Error.PinError e), { st with rstCnt := st.rstCnt + 1 })

/-- lib.rs `spi_write`: call `spi.write(data)`; on failure return
`Err(Error::SpiError(e))`.  A successful call records the written bytes. -/
def spi_write (data : List Nat) : M Unit := fun env st =>
  match env.spiRes st.spiCnt with
  | none =>
      (Except.ok (),
       { st with spiCnt := st.spiCnt + 1,
                 trace := st.trace ++ [Event.spiWrite data] })
  | some e => (Except.error (Error.SpiError e), { st with spiCnt := st.spiCnt + 1 })

/-- lib.rs `ST7567::command`: `set_pin(&mut self.dc_pin, Low)?;
spi_write(&mut self.spi, data)`. -/
def command (data : List Nat) : M Unit :=
  mBind (set_pin PinKind.dc PinState.Low) (fun _ => spi_write data)

/-- lib.rs `ST7567::data`: `set_pin(&mut self.dc_pin, High)?;
spi_write(&mut self.spi, data)`. -/
def data (bytes : List Nat) : M Unit :=
  mBind (set_pin PinKind.dc PinState.High) (fun _ => spi_write bytes)

/-- lib.rs `ST7567::reset`: rst LOW, sleep 10ms, rst HIGH, sleep 100ms,
`Ok(())`.  The sleeps have no observable effect in this embedding. -/
def reset : M Unit :=
  mBind (set_pin PinKind.rst PinState.Low) (fun _ =>
    mBind (set_pin PinKind.rst PinState.High) (fun _ => mPure ()))

/-- lib.rs `ST7567::set_contrast`: `self.command(&[ST7567_SETCONTRAST, value])`. -/
def set_contrast (value : Nat) : M Unit :=
  command [ ST7567_SETCONTRAST, value]

/-- lib.rs `ST7567::init`: one `command` call with the fixed ten-byte
configuration sequence. -/
def init : M Unit :=
  command [ ST7567_BIAS_1_7,
            ST7567_SEG_DIR_NORMAL,
            ST7567_SETCOMREVERSE,
            ST7567_DISPNORMAL,
            ST7567_SETSTARTLINE ||| 0,
            ST7567_POWERCTRL,
            ST7567_REG_RATIO ||| 3,
            ST7567_DISPON,
            ST7567_SETCONTRAST,
            40]

/-- lib.rs `ST7567::clear`: `self.buf = [0; BUFFER_SIZE];`. -/
def clear (_buf : List Nat) : List Nat := List.replicate BUFFER_SIZE 0

/-- The linear buffer offset computed by `set_pixel`:
`((y / 8) * WIDTH as usize) + x`. -/
def pixelOffset (x y : Nat) : Nat := (y / 8) * WIDTH + x

/-- The bit index computed by `set_pixel`: `y as u8 % 8`. -/
def pixelBit (y : Nat) : Nat := y % 8

/-- lib.rs `ST7567::set_pixel` acting on the framebuffer: out-of-range
coordinates return immediately; otherwise OR in `1 << bit` when `value`
is true, AND with the `u8` complement `!(1 << bit)` (= `255 ^^^ (1 <<< bit)`
for `bit < 8`) when false. -/
def set_pixel (x y : Nat) (value : Bool) (buf : List Nat) : List Nat :=
  if WIDTH ≤ x ∨ HEIGHT ≤ y then buf
  else
    let offset := pixelOffset x y
    let bit := pixelBit y
    if value then
      buf.set offset (buf.getD offset 0 ||| 1 <<< bit)
    else
      buf.set offset (buf.getD offset 0 &&& (255 ^^^ 1 <<< bit))

/-- One iteration of the `show` page loop: the 3-byte page setup command,
then the page's 128-byte slice of the current buffer via `data`. -/
def showPage (page : Nat) : M Unit :=
  mBind (command [ ST7567_SETPAGESTART ||| page, ST7567_SETCOLL, ST7567_SETCOLH])
    (fun _ => fun env st =>
      data ((st.buf.drop (page * ST7567_PAGESIZE)).take ST7567_PAGESIZE) env st)

/-- The `for page in 0..8` loop of `show`, with `?`-propagation. -/
def showPages : List Nat → M Unit
  | [] => mPure ()
  | p :: ps => mBind (showPage p) (fun _ => showPages ps)

/-- lib.rs `ST7567::show`: enter read-modify-write mode, write the 8 pages,
exit read-modify-write mode. -/
def show' : M Unit :=
  mBind (command [ ST7567_ENTER_RMWMODE]) (fun _ =>
    mBind (showPages (List.range 8)) (fun _ =>
      command [ ST7567_EXIT_RMWMODE]))

/-- Environment in which every pin-set and SPI write succeeds. -/
def allOk : Env :=
  { dcRes := fun _ => none, rstRes := fun _ => none, spiRes := fun _ => none }

/-- The state of a freshly constructed driver over the given buffer
(`ST7567::new` zero-fills; we allow an arbitrary buffer to quantify over
framebuffer contents). -/
def mkSt (buf : List Nat) : St :=
  { buf := buf, dcCnt := 0, rstCnt := 0, spiCnt := 0, trace := [] }

/-- The 3-byte page setup frame `[0xB0 | p, 0x00, 0x10]`. -/
def pageFrame (p : Nat) : List Nat :=
  [ ST7567_SETPAGESTART ||| p, ST7567_SETCOLL, ST7567_SETCOLH]

/-- Page `p`'s 128-byte slice `buf[p*128 .. p*128+128]`. -/
def pageSlice (buf : List Nat) (p : Nat) : List Nat :=
  (buf.drop (p * ST7567_PAGESIZE)).take ST7567_PAGESIZE

/-- The events a fully successful iteration of the page loop produces. -/
def pageEvents (buf : List Nat) (p : Nat) : List Event :=
  [Event.pinSet PinKind.dc PinState.Low, Event.spiWrite (pageFrame p),
   Event.pinSet PinKind.dc PinState.High, Event.spiWrite (pageSlice buf p)]

/-- The full event trace of a successful `show`: enter RMW (dc LOW), the
eight pages, exit RMW (dc LOW). -/
def showSpecTrace (buf : List Nat) : List Event :=
  [Event.pinSet PinKind.dc PinState.Low, Event.spiWrite [ ST7567_ENTER_RMWMODE]]
    ++ (List.range 8).flatMap (pageEvents buf)
    ++ [Event.pinSet PinKind.dc PinState.Low, Event.spiWrite [ ST7567_EXIT_RMWMODE]]

/-- The event trace of a `show` whose page-`p` data write fails: enter RMW,
pages `0..p` complete, then page `p`'s setup frame and the dc HIGH
transition, and nothing further. -/
def showFailTrace (buf : List Nat) (p : Nat) : List Event :=
  [Event.pinSet PinKind.dc PinState.Low, Event.spiWrite [ ST7567_ENTER_RMWMODE]]
    ++ (List.range p).flatMap (pageEvents buf)
    ++ [Event.pinSet PinKind.dc PinState.Low, Event.spiWrite (pageFrame p),
        Event.pinSet PinKind.dc PinState.High]

/-- All bytes emitted onto the SPI transport by a trace, in order. -/
def writtenBytes : List Event → List Nat
  | [] => []
  | Event.spiWrite bs :: es => bs ++ writtenBytes es
  | Event.pinSet _ _ :: es => writtenBytes es

/-- Environment whose only fault is on the SPI write with call index
`2*p + 2` (counting from a fresh driver, that is page `p`'s data write:
index 0 is the enter-RMW write, and page `q` contributes writes `2q + 1`
(setup frame) and `2q + 2` (data)); the fault carries error code `e`. -/
def failEnv (p e : Nat) : Env :=
  { dcRes := fun _ => none, rstRes := fun _ => none,
    spiRes := fun n => if n = 2 * p + 2 then some e else none }

end ST7567

namespace ST7567

/-- Claim C2: `init()` performs exactly one command transaction: it sets the
command/data line LOW once and writes exactly the 10-byte sequence
`[0xA3, 0xA0, 0xC8, 0xA6, 0x40, 0x2F, 0x23, 0xAF, 0x81, 40]` in a single
transport write, in that order.  Stated as: from any freshly constructed
driver, `init` in a fault-free environment makes exactly one dc-pin call and
one SPI call, both succeed, and the trace is one dc LOW transition followed
by one write of exactly those ten bytes. -/
theorem init_single_command (buf : List Nat) :
    init allOk (mkSt buf) =
      (Except.ok (),
       { buf := buf, dcCnt := 1, rstCnt := 0, spiCnt := 1,
         trace := [Event.pinSet PinKind.dc PinState.Low,
                   Event.spiWrite [0xa3, 0xa0, 0xc8, 0xa6, 0x40, 0x2f, 0x23, 0xaf, 0x81, 40]] }) := by
  rfl

/-- Claim C4: for every `x ≥ 128` or `y ≥ 64` and every value,
`set_pixel(x, y, value)` leaves every byte of the framebuffer unchanged
(and, being total with no error channel, signals no error). -/
theorem set_pixel_out_of_range_noop (x y : Nat) (value : Bool) (buf : List Nat)
    (h : 128 ≤ x ∨ 64 ≤ y) :
    set_pixel x y value buf = buf := by
  unfold set_pixel
  rw [if_pos]
  exact h

/-- Witness for `set_pixel_out_of_range_noop` at `x = 128`, `y = 0`. -/
theorem set_pixel_out_of_range_noop_witness :
    (128 ≤ 128 ∨ 64 ≤ 0) ∧ set_pixel 128 0 true [7] = [7] :=
  ⟨Or.inl le_rfl, set_pixel_out_of_range_noop 128 0 true [7] (Or.inl le_rfl)⟩

/-- Claim C1: for every framebuffer contents, a fully successful `show()`
emits, in order: the single byte 0xE0 with the dc line LOW, then for each
page `p` in 0..8 the 3-byte frame `[0xB0 | p, 0x00, 0x10]` with dc LOW
followed by the 128 bytes `buf[p*128 .. p*128+128]` with dc HIGH, then the
single byte 0xEE with dc LOW — 1050 transport bytes in total. -/
theorem show_success_trace (buf : List Nat) (h : buf.length = 1024) :
    (show' allOk (mkSt buf)).1 = Except.ok ()
      ∧ (show' allOk (mkSt buf)).2.trace = showSpecTrace buf
      ∧ (writtenBytes (show' allOk (mkSt buf)).2.trace).length = 1050 := by
  have htr : (show' allOk (mkSt buf)).2.trace = showSpecTrace buf := by
    simp [show', showPages, showPage, command, data, mBind, set_pin, spi_write,
      allOk, mkSt, showSpecTrace, pageEvents, pageFrame, pageSlice, List.range_succ, mPure]
  have hok : (show' allOk (mkSt buf)).1 = Except.ok () := by
    simp [show', showPages, showPage, command, data, mBind, set_pin, spi_write,
      allOk, mkSt, mPure]
  refine ⟨hok, htr, ?_⟩
  rw [htr]
  simp [showSpecTrace, writtenBytes, pageEvents, pageFrame, pageSlice,
    List.range_succ, ST7567_PAGESIZE, h]

/-- Witness for `show_success_trace` at the all-zero framebuffer. -/
theorem show_success_trace_witness :
    (List.replicate 1024 0).length = 1024
      ∧ ((show' allOk (mkSt (List.replicate 1024 0))).1 = Except.ok ()
          ∧ (show' allOk (mkSt (List.replicate 1024 0))).2.trace = showSpecTrace (List.replicate 1024 0)
          ∧ (writtenBytes (show' allOk (mkSt (List.replicate 1024 0))).2.trace).length = 1050) :=
  ⟨List.length_replicate 1024 0, show_success_trace (List.replicate 1024 0) (List.length_replicate 1024 0)⟩

/-- Reading back the byte just stored by `List.set` at an in-bounds index. -/
theorem getD_set_self (l : List Nat) (i v : Nat) (h : i < l.length) :
    (l.set i v).getD i 0 = v := by
  rw [List.getD_eq_getElem?_getD, List.getElem?_set_self h]
  rfl

/-- `set_pixel` with an out-of-range coordinate returns the buffer as is. -/
theorem set_pixel_oob (x y : Nat) (v : Bool) (buf : List Nat)
    (h : WIDTH ≤ x ∨ HEIGHT ≤ y) : set_pixel x y v buf = buf := by
  unfold set_pixel
  rw [if_pos h]

/-- In-range `set_pixel` with `value = true` ORs `1 << bit` into the byte at
the computed offset. -/
theorem set_pixel_true_eq (x y : Nat) (buf : List Nat) (h : ¬(WIDTH ≤ x ∨ HEIGHT ≤ y)) :
    set_pixel x y true buf
      = buf.set (pixelOffset x y) (buf.getD (pixelOffset x y) 0 ||| 1 <<< pixelBit y) := by
  simp [set_pixel, h]

/-- In-range `set_pixel` with `value = false` ANDs the complement mask into
the byte at the computed offset. -/
theorem set_pixel_false_eq (x y : Nat) (buf : List Nat) (h : ¬(WIDTH ≤ x ∨ HEIGHT ≤ y)) :
    set_pixel x y false buf
      = buf.set (pixelOffset x y) (buf.getD (pixelOffset x y) 0 &&& (255 ^^^ 1 <<< pixelBit y)) := by
  simp [set_pixel, h]

set_option maxRecDepth 4096 in
/-- Claim C3: for every `x < 128` and `y < 64`, `set_pixel(x, y, true)` sets
bit `y % 8` of buffer byte `(y / 8) * 128 + x` to 1, a subsequent
`set_pixel(x, y, false)` resets it to 0, and in both cases the update is
exactly `buf[offset] |= 1 << bit` resp. `buf[offset] &= !(1 << bit)` at
`offset = (y / 8) * WIDTH + x`, `bit = y % 8`. -/
theorem set_pixel_bit_set_clear (buf : List Nat) (h : buf.length = 1024) (x y : Nat)
    (hx : x < 128) (hy : y < 64) :
    set_pixel x y true buf
        = buf.set (pixelOffset x y) (buf.getD (pixelOffset x y) 0 ||| 1 <<< pixelBit y)
      ∧ ((set_pixel x y true buf).getD (pixelOffset x y) 0).testBit (pixelBit y) = true
      ∧ set_pixel x y false (set_pixel x y true buf)
          = (set_pixel x y true buf).set (pixelOffset x y)
              ((set_pixel x y true buf).getD (pixelOffset x y) 0 &&& (255 ^^^ 1 <<< pixelBit y))
      ∧ ((set_pixel x y false (set_pixel x y true buf)).getD (pixelOffset x y) 0).testBit (pixelBit y)
          = false := by
  have hguard : ¬ (WIDTH ≤ x ∨ HEIGHT ≤ y) := by
    unfold WIDTH HEIGHT
    omega
  have hoff : pixelOffset x y < 1024 := by
    unfold pixelOffset WIDTH
    omega
  have hbit : pixelBit y < 8 := by
    unfold pixelBit
    omega
  have e1 := set_pixel_true_eq x y buf hguard
  have len1 : (set_pixel x y true buf).length = 1024 := by
    rw [e1, List.length_set, h]
  have g1 : (set_pixel x y true buf).getD (pixelOffset x y) 0
      = buf.getD (pixelOffset x y) 0 ||| 1 <<< pixelBit y := by
    rw [e1]
    exact getD_set_self buf _ _ (h ▸ hoff)
  have e2 := set_pixel_false_eq x y (set_pixel x y true buf) hguard
  have g2 : (set_pixel x y false (set_pixel x y true buf)).getD (pixelOffset x y) 0
      = (set_pixel x y true buf).getD (pixelOffset x y) 0 &&& (255 ^^^ 1 <<< pixelBit y) := by
    rw [e2]
    exact getD_set_self _ _ _ (len1 ▸ hoff)
  refine ⟨e1, ?_, e2, ?_⟩
  · rw [g1]
    simp [Nat.testBit_or, Nat.testBit_shiftLeft, Nat.sub_self]
  · rw [g2, g1]
    have hmask : Nat.testBit 255 (pixelBit y) = true := by
      have h255 : (255 : Nat) = 2 ^ 8 - 1 := by norm_num
      rw [h255, Nat.testBit_two_pow_sub_one]
      simpa using hbit
    simp [Nat.testBit_and, Nat.testBit_xor, Nat.testBit_or, Nat.testBit_shiftLeft,
      Nat.sub_self, hmask]

/-- Witness for `set_pixel_bit_set_clear` at `(x, y) = (10, 20)` on the
all-zero framebuffer. -/
theorem set_pixel_bit_set_clear_witness :
    (List.replicate 1024 0).length = 1024 ∧ 10 < 128 ∧ 20 < 64
      ∧ (set_pixel 10 20 true (List.replicate 1024 0)
            = (List.replicate 1024 0).set (pixelOffset 10 20)
                ((List.replicate 1024 0).getD (pixelOffset 10 20) 0 ||| 1 <<< pixelBit 20)
          ∧ ((set_pixel 10 20 true (List.replicate 1024 0)).getD (pixelOffset 10 20) 0).testBit
              (pixelBit 20) = true
          ∧ set_pixel 10 20 false (set_pixel 10 20 true (List.replicate 1024 0))
              = (set_pixel 10 20 true (List.replicate 1024 0)).set (pixelOffset 10 20)
                  ((set_pixel 10 20 true (List.replicate 1024 0)).getD (pixelOffset 10 20) 0
                    &&& (255 ^^^ 1 <<< pixelBit 20))
          ∧ ((set_pixel 10 20 false (set_pixel 10 20 true (List.replicate 1024 0))).getD
              (pixelOffset 10 20) 0).testBit (pixelBit 20) = false) :=
  ⟨List.length_replicate 1024 0, by decide, by decide,
   set_pixel_bit_set_clear (List.replicate 1024 0) (List.length_replicate 1024 0)
     10 20 (by decide) (by decide)⟩

/-- Claim C8: `set_pixel` is idempotent — calling it twice with the same
arguments yields the same framebuffer as calling it once. -/
theorem set_pixel_idempotent (x y : Nat) (v : Bool) (buf : List Nat) :
    set_pixel x y v (set_pixel x y v buf) = set_pixel x y v buf := by
  by_cases hg : WIDTH ≤ x ∨ HEIGHT ≤ y
  · rw [set_pixel_oob x y v _ hg, set_pixel_oob x y v _ hg]
  · by_cases hin : pixelOffset x y < buf.length
    · cases v with
      | true =>
          rw [set_pixel_true_eq x y buf hg, set_pixel_true_eq x y _ hg,
            getD_set_self _ _ _ hin, List.set_set, Nat.or_assoc, Nat.or_self]
      | false =>
          rw [set_pixel_false_eq x y buf hg, set_pixel_false_eq x y _ hg,
            getD_set_self _ _ _ hin, List.set_set, Nat.and_assoc, Nat.and_self]
    · have hle : buf.length ≤ pixelOffset x y := Nat.le_of_not_lt hin
      cases v with
      | true =>
          rw [set_pixel_true_eq x y buf hg]
          simp [List.set_eq_of_length_le hle, set_pixel_true_eq x y buf hg]
      | false =>
          rw [set_pixel_false_eq x y buf hg]
          simp [List.set_eq_of_length_le hle, set_pixel_false_eq x y buf hg]

/-- Claim C9: under the `set_pixel` guard `x < WIDTH`, `y < HEIGHT`, the
computed offset `(y / 8) * WIDTH + x` is below `BUFFER_SIZE`, so the
unchecked buffer index is in bounds, and `bit = y % 8 < 8`, so `1 << bit`
stays a single in-range `u8` bit. -/
theorem set_pixel_offset_in_bounds (x y : Nat) (hx : x < WIDTH) (hy : y < HEIGHT) :
    pixelOffset x y < BUFFER_SIZE ∧ pixelBit y < 8 := by
  unfold pixelOffset pixelBit WIDTH HEIGHT BUFFER_SIZE at *
  omega

/-- Witness for `set_pixel_offset_in_bounds` at the bottom-right pixel. -/
theorem set_pixel_offset_in_bounds_witness :
    127 < WIDTH ∧ 63 < HEIGHT ∧ (pixelOffset 127 63 < BUFFER_SIZE ∧ pixelBit 63 < 8) :=
  ⟨by decide, by decide, set_pixel_offset_in_bounds 127 63 (by decide) (by decide)⟩

/-- Claim C6: both `command` and `data` first set the dc line (LOW resp.
HIGH); if the pin set fails with underlying error `e` the call returns
`PinError e` and the SPI write is never attempted (the SPI call counter
stays put and no write event appears); if the pin set succeeds and the
write fails with `e` the call returns `SpiError e`; if both succeed the
call returns `Ok` having emitted the pin transition then the bytes.  The
oracle results `r1`, `r2` range over all outcomes, so no other behaviour
exists. -/
theorem command_data_outcomes (bytes : List Nat) (st : St) (r1 r2 : Option Nat) :
    (command bytes { dcRes := fun _ => r1, rstRes := fun _ => none, spiRes := fun _ => r2 } st =
      match r1 with
      | some e => (Except.error (Error.PinError e), { st with dcCnt := st.dcCnt + 1 })
      | none =>
        match r2 with
        | some e => (Except.error (Error.SpiError e),
            { st with dcCnt := st.dcCnt + 1, spiCnt := st.spiCnt + 1,
                      trace := st.trace ++ [Event.pinSet PinKind.dc PinState.Low] })
        | none => (Except.ok (),
            { st with dcCnt := st.dcCnt + 1, spiCnt := st.spiCnt + 1,
                      trace := st.trace ++ [Event.pinSet PinKind.dc PinState.Low,
                                            Event.spiWrite bytes] }))
    ∧ (data bytes { dcRes := fun _ => r1, rstRes := fun _ => none, spiRes := fun _ => r2 } st =
      match r1 with
      | some e => (Except.error (Error.PinError e), { st with dcCnt := st.dcCnt + 1 })
      | none =>
        match r2 with
        | some e => (Except.error (Error.SpiError e),
            { st with dcCnt := st.dcCnt + 1, spiCnt := st.spiCnt + 1,
                      trace := st.trace ++ [Event.pinSet PinKind.dc PinState.High] })
        | none => (Except.ok (),
            { st with dcCnt := st.dcCnt + 1, spiCnt := st.spiCnt + 1,
                      trace := st.trace ++ [Event.pinSet PinKind.dc PinState.High,
                                            Event.spiWrite bytes] })) := by
  rcases r1 with _ | e <;> rcases r2 with _ | f <;>
    simp [command, data, mBind, set_pin, spi_write, List.append_assoc]

/-- Claim C7: `reset` drives the reset line LOW then HIGH, in that order,
with no other transitions of that line in between; if the LOW set fails the
HIGH transition is never attempted (one rst call only, no trace event).
The oracle results `r1` (first rst call) and `r2` (second rst call) range
over all outcomes. -/
theorem reset_line_sequence (st : St) (r1 r2 : Option Nat) :
    reset { dcRes := fun _ => none, spiRes := fun _ => none,
            rstRes := fun n => if n = st.rstCnt then r1 else r2 } st =
      match r1 with
      | some e => (Except.error (Error.PinError e), { st with rstCnt := st.rstCnt + 1 })
      | none =>
        match r2 with
        | some e => (Except.error (Error.PinError e),
            { st with rstCnt := st.rstCnt + 1 + 1,
                      trace := st.trace ++ [Event.pinSet PinKind.rst PinState.Low] })
        | none => (Except.ok (),
            { st with rstCnt := st.rstCnt + 1 + 1,
                      trace := st.trace ++ [Event.pinSet PinKind.rst PinState.Low,
                                            Event.pinSet PinKind.rst PinState.High] }) := by
  rcases r1 with _ | e <;> rcases r2 with _ | f <;>
    simp [reset, mBind, mPure, set_pin, List.append_assoc]

/-- Claim C5: if page `p`'s data write fails with error `e` (SPI call index
`2*p + 2`), `show` returns `SpiError e` immediately: the trace stops after
page `p`'s setup frame and dc HIGH transition — no setup or data bytes of
any later page appear and the exit-RMW byte 0xEE is never written. -/
theorem show_aborts_on_page_data_failure (buf : List Nat) (p : Nat) (hp : p < 8) (e : Nat) :
    (show' (failEnv p e) (mkSt buf)).1 = Except.error (Error.SpiError e)
      ∧ (show' (failEnv p e) (mkSt buf)).2.trace = showFailTrace buf p := by
  interval_cases p <;>
    refine ⟨?_, ?_⟩ <;>
    simp [show', showPages, showPage, command, data, mBind, mPure, set_pin, spi_write,
      failEnv, mkSt, showFailTrace, pageEvents, pageFrame, pageSlice, List.range_succ]

/-- Witness for `show_aborts_on_page_data_failure` at page 4, error code 7,
all-zero framebuffer. -/
theorem show_aborts_on_page_data_failure_witness :
    4 < 8
      ∧ ((show' (failEnv 4 7) (mkSt (List.replicate 1024 0))).1
            = Except.error (Error.SpiError 7)
          ∧ (show' (failEnv 4 7) (mkSt (List.replicate 1024 0))).2.trace
            = showFailTrace (List.replicate 1024 0) 4) :=
  ⟨by decide, show_aborts_on_page_data_failure (List.replicate 1024 0) 4 (by decide) 7⟩

/-- `set_pin` never touches the framebuffer. -/
theorem buf_set_pin (k : PinKind) (s : PinState) (env : Env) (st : St) :
    (set_pin k s env st).2.buf = st.buf := by
  cases k with
  | dc => rcases h : env.dcRes st.dcCnt with _ | e <;> simp [set_pin, h]
  | rst => rcases h : env.rstRes st.rstCnt with _ | e <;> simp [set_pin, h]

/-- `spi_write` never touches the framebuffer. -/
theorem buf_spi_write (bytes : List Nat) (env : Env) (st : St) :
    (spi_write bytes env st).2.buf = st.buf := by
  rcases h : env.spiRes st.spiCnt with _ | e <;> simp [spi_write, h]

/-- Buffer preservation composes through `mBind`. -/
theorem buf_mBind {α β : Type} (m : M α) (f : α → M β)
    (hm : ∀ env st, (m env st).2.buf = st.buf)
    (hf : ∀ a env st, (f a env st).2.buf = st.buf) :
    ∀ env st, (mBind m f env st).2.buf = st.buf := by
  intro env st
  unfold mBind
  cases hres : m env st with
  | mk r st' =>
    have hb : st'.buf = st.buf := by
      have h := hm env st
      rw [hres] at h
      exact h
    cases r with
    | ok a => exact (hf a env st').trans hb
    | error e => exact hb

/-- `command` never touches the framebuffer. -/
theorem buf_command (bytes : List Nat) (env : Env) (st : St) :
    (command bytes env st).2.buf = st.buf :=
  buf_mBind _ _ (buf_set_pin PinKind.dc PinState.Low)
    (fun _ => buf_spi_write bytes) env st

/-- `data` never touches the framebuffer. -/
theorem buf_data (bytes : List Nat) (env : Env) (st : St) :
    (data bytes env st).2.buf = st.buf :=
  buf_mBind _ _ (buf_set_pin PinKind.dc PinState.High)
    (fun _ => buf_spi_write bytes) env st

/-- One page of `show` never touches the framebuffer. -/
theorem buf_showPage (p : Nat) (env : Env) (st : St) :
    (showPage p env st).2.buf = st.buf :=
  buf_mBind _ _ (buf_command _)
    (fun _ env' st' => buf_data _ env' st') env st

/-- The page loop of `show` never touches the framebuffer. -/
theorem buf_showPages (ps : List Nat) : ∀ (env : Env) (st : St),
    (showPages ps env st).2.buf = st.buf := by
  induction ps with
  | nil => intro env st; rfl
  | cons p ps ih =>
      intro env st
      exact buf_mBind _ _ (buf_showPage p) (fun _ => ih) env st

/-- `show` never touches the framebuffer. -/
theorem buf_show (env : Env) (st : St) : (show' env st).2.buf = st.buf :=
  buf_mBind _ _ (buf_command _)
    (fun _ => buf_mBind _ _ (buf_showPages (List.range 8))
      (fun _ => buf_command _)) env st

/-- `reset` never touches the framebuffer. -/
theorem buf_reset (env : Env) (st : St) : (reset env st).2.buf = st.buf :=
  buf_mBind _ _ (buf_set_pin PinKind.rst PinState.Low)
    (fun _ => buf_mBind _ _ (buf_set_pin PinKind.rst PinState.High)
      (fun _ _ _ => rfl)) env st

/-- `init` never touches the framebuffer. -/
theorem buf_init (env : Env) (st : St) : (init env st).2.buf = st.buf :=
  buf_command _ env st

/-- `set_contrast` never touches the framebuffer. -/
theorem buf_set_contrast (value : Nat) (env : Env) (st : St) :
    (set_contrast value env st).2.buf = st.buf :=
  buf_command _ env st

/-- Claim C10: `reset`, `init`, `set_contrast` and `show` never modify the
framebuffer: from every starting state and every environment (hence every
success or failure outcome) the buffer after the call equals the buffer
before. -/
theorem display_ops_preserve_buffer (env : Env) (st : St) (value : Nat) :
    (reset env st).2.buf = st.buf
      ∧ (init env st).2.buf = st.buf
      ∧ (set_contrast value env st).2.buf = st.buf
      ∧ (show' env st).2.buf = st.buf :=
  ⟨buf_reset env st, buf_init env st, buf_set_contrast value env st, buf_show env st⟩

end ST7567
